import Mathlib

/-!
Verification of the rendering service in `src/main.rs` (tex.gaato.net).

The program is an HTTP service with two handlers:
* `svg_handler`  : LaTeX → SVG (pass-through of the translator output);
* `png_handler`  : LaTeX → SVG → rasterized, padded, PNG-encoded image.

We embed the handlers and the rendering pipeline shallowly.  Machine
integers (`u32`, `usize`) are modelled as `ℕ` with explicit `% 2^32`
(resp. bounds against `2^64`) where overflow matters.  Floating-point
sizes are modelled as exact rationals `ℚ`: `ℚ` has no non-finite values,
matching usvg's `Size` invariant (positive, finite dimensions).
Fallible operations return `Option`/`Except`.

The external crates (usvg, tiny-skia, mathjax_svg, png, axum) are not
part of this repository; where a claim depends on their behaviour, the
corresponding definition is modelled from the spec and says so in its
doc comment.
-/

namespace TexGaato

/-- `const HEIGHT: u32 = 100` — the height of the PNG (main.rs line 30). -/
def HEIGHT : ℕ := 100

/-- `const PADDING: u32 = 20` — padding size (main.rs line 32). -/
def PADDING : ℕ := 20

/-- `const FONT_FAMILY` for the default (non-macos, non-windows) target
(main.rs line 39). -/
def FONT_FAMILY : String := "Noto Serif CJK JP"

/-- Modulus of `u32` arithmetic. -/
def U32MOD : ℕ := 2 ^ 32

/-- Modulus of `usize` arithmetic (64-bit target). -/
def USIZEMOD : ℕ := 2 ^ 64

/-- An RGBA color with premultiplied components normalised to `[0,1]`
(so opaque white `(255,255,255,255)` is `⟨1,1,1,1⟩`).  Rationals stand
for the exact values of the color arithmetic. -/
structure RGBA where
  r : ℚ
  g : ℚ
  b : ℚ
  a : ℚ
deriving DecidableEq, Repr

/-- `Color::WHITE` of tiny-skia: opaque white, i.e. `(255,255,255,255)`. -/
def Color.WHITE : RGBA := ⟨1, 1, 1, 1⟩

/-- A fully transparent pixel; `Pixmap::new` zero-initialises to this. -/
def RGBA.transparent : RGBA := ⟨0, 0, 0, 0⟩

/-- Source-over compositing of premultiplied colors: the blend used by
`PixmapPaint::default()` (`BlendMode::SourceOver`, opacity 1):
`result = src + dst · (1 - src.a)`.  The source (the math image pixel)
is composited over the destination (the background). -/
def blendOver (s d : RGBA) : RGBA :=
  ⟨s.r + d.r * (1 - s.a), s.g + d.g * (1 - s.a),
   s.b + d.b * (1 - s.a), s.a + d.a * (1 - s.a)⟩

/-- A tiny-skia `Pixmap`: a pixel buffer of the given dimensions.  The
buffer is modelled as a total function on coordinates; only the values
at `x < width`, `y < height` are meaningful. -/
structure Pixmap where
  width : ℕ
  height : ℕ
  pixel : ℕ → ℕ → RGBA

instance : Inhabited Pixmap := ⟨⟨0, 0, fun _ _ => RGBA.transparent⟩⟩

/-- `tiny_skia::Pixmap::new(w, h)`: allocates a zero-initialised (fully
transparent) pixmap.  Returns `None` when a dimension is zero or when
the byte length `w·h·4` does not fit in `usize` (checked arithmetic in
tiny-skia). -/
def Pixmap.new (w h : ℕ) : Option Pixmap :=
  if w = 0 ∨ h = 0 ∨ USIZEMOD ≤ w * h * 4 then none
  else some { width := w, height := h, pixel := fun _ _ => RGBA.transparent }

/-- `Pixmap::fill(c)`: fills the whole buffer with one color. -/
def Pixmap.fill (p : Pixmap) (c : RGBA) : Pixmap :=
  { p with pixel := fun _ _ => c }

/-- `Pixmap::draw_pixmap(ox, oy, src, &PixmapPaint::default(),
Transform::default(), None)`: draws `src` onto `p` at offset
`(ox, oy)`, source-over-blending each source pixel over the
destination pixel; pixels outside the drawn rectangle are unchanged. -/
def Pixmap.drawPixmap (p : Pixmap) (ox oy : ℕ) (src : Pixmap) : Pixmap :=
  { p with pixel := fun x y =>
      if ox ≤ x ∧ x < ox + src.width ∧ oy ≤ y ∧ y < oy + src.height then
        blendOver (src.pixel (x - ox) (y - oy)) (p.pixel x y)
      else p.pixel x y }

/-- The intrinsic size of a vector document, in abstract units.  usvg's
`Size` carries finite positive `f32` dimensions; we model them exactly
as rationals. -/
structure Size where
  w : ℚ
  h : ℚ
deriving DecidableEq, Repr

/-- Modelled from the spec: the size computation
`original_size.to_int_size().scale_to_height(HEIGHT)` performed by usvg
(library code absent from the repository).  Per the spec (§4.3):
an integer-rounded (width, height) pair where `height == targetHeight`
and `width = round(intrinsicWidth * targetHeight / intrinsicHeight)`;
fails if the intrinsic size has a zero (or negative, standing in for
non-finite) dimension, or if the computed integer size is zero in
either dimension. -/
def scaleToHeight (s : Size) (targetHeight : ℕ) : Option (ℕ × ℕ) :=
  if s.w ≤ 0 ∨ s.h ≤ 0 ∨ round (s.w * targetHeight / s.h) ≤ 0 ∨ targetHeight = 0
  then none
  else some ((round (s.w * targetHeight / s.h)).toNat, targetHeight)

/-- A resolved render tree (`resvg::Tree`): its intrinsic size, plus its
rendering behaviour abstracted as a pixel-buffer transformation.
`render sx sy` models `rtree.render(Transform::from_scale(sx, sy), …)`,
which writes into the pixmap's pixel buffer and cannot change its
dimensions. -/
structure Rtree where
  size : Size
  render : ℚ → ℚ → (ℕ → ℕ → RGBA) → (ℕ → ℕ → RGBA)

/-- Applying `rtree.render` to a pixmap: the pixel content is rewritten,
the dimensions are untouched. -/
def renderInto (rt : Rtree) (sx sy : ℚ) (p : Pixmap) : Pixmap :=
  { p with pixel := rt.render sx sy p.pixel }

/-- The error enum of main.rs (lines 42–52); each variant carries its
display message. -/
inductive Error where
  | LaTeX : String → Error
  | Png : String → Error
  | Svg : String → Error
  | Other : String → Error
deriving DecidableEq, Repr

/-- `self.to_string()`: the transparent display message of the wrapped
error. -/
def Error.msg : Error → String
  | .LaTeX m => m
  | .Png m => m
  | .Svg m => m
  | .Other m => m

/-- `impl IntoResponse for Error` (main.rs lines 54–67), as a
(status, body) pair.  Note the source builds
`out = "Internal Error: " + msg` in the non-LaTeX branch but then
responds with `self.to_string()` (line 64), so `out` is discarded
and the 500 body is the bare message. -/
def Error.into_response : Error → ℕ × String
  | .LaTeX m => (400, "LaTeX Error: " ++ m)
  | e => (500, e.msg)

/-- The math-image stage of `png_handler` (main.rs lines 116–133):
compute the target size, allocate the pixmap, render with the
per-axis scale factors. -/
def mathImage (rt : Rtree) : Except Error Pixmap :=
  match scaleToHeight rt.size HEIGHT with
  | none => .error (.Other "scaling Pixmap")
  | some (tw, th) =>
    match Pixmap.new tw th with
    | none => .error (.Other "creating new Pixmap to draw svg in")
    | some pix =>
      .ok (renderInto rt ((tw : ℚ) / rt.size.w) ((th : ℚ) / rt.size.h) pix)

/-- The padding stage of `png_handler` (main.rs lines 136–151):
`Pixmap::new(PADDING * 2 + image.width(), PADDING * 2 + image.height())`,
filled white, with the math image drawn at `(PADDING, PADDING)`.  The
size additions are unchecked `u32` arithmetic, hence the `% U32MOD`. -/
def composite (image : Pixmap) : Except Error Pixmap :=
  match Pixmap.new ((PADDING * 2 + image.width) % U32MOD)
      ((PADDING * 2 + image.height) % U32MOD) with
  | none => .error (.Other "creating new Pixmap for padding")
  | some bg => .ok ((bg.fill Color.WHITE).drawPixmap PADDING PADDING image)

/-- The full rendering pipeline of `png_handler` after text conversion:
math image, then padding.  (PNG encoding, `encode_png`, is an external
codec and is not modelled; no claim depends on the byte stream.) -/
def png_pipeline (rt : Rtree) : Except Error Pixmap :=
  match mathImage rt with
  | .error e => .error e
  | .ok img => composite img

/-- The process-wide font database: what `FONTDB` observably carries
after initialisation (main.rs lines 105–111): system fonts are loaded
and the serif family is set to `FONT_FAMILY`. -/
structure FontDB where
  systemFontsLoaded : Bool
  serifFamily : String
deriving DecidableEq, Repr

/-- The initialiser closure passed to `FONTDB.get_or_init` (main.rs
lines 105–111). -/
def initFontDB : FontDB := { systemFontsLoaded := true, serifFamily := FONT_FAMILY }

/-- `OnceLock::get_or_init` in a sequential state-passing model: the
process-wide cell is `none` before first use; the first use runs the
initialiser, later uses return the stored value unchanged. -/
def getOrInit (db : Option FontDB) : FontDB × Option FontDB :=
  match db with
  | some d => (d, some d)
  | none => (initFontDB, some initFontDB)

/-- An unconverted usvg `Tree` (`Tree::from_data` output), before
`convert_text`; opaque to the pipeline. -/
structure UTree where
  data : String
deriving DecidableEq, Repr

/-- `svg_handler` (main.rs lines 86–89): pass the translator result
through; a translator failure becomes `Error::LaTeX` via `?`, a
success is returned with content type `image/svg+xml`.  The input
`tr` is the result of `convert_to_svg(req.latex)` (external
translator). -/
def svg_handler (tr : Except String String) : Except Error (String × String) :=
  match tr with
  | .error m => .error (.LaTeX m)
  | .ok svg => .ok ("image/svg+xml", svg)

/-- `svg_handler` with the process-wide `FONTDB` state threaded
explicitly: the source handler never mentions `FONTDB`, so the state
passes through untouched and the result does not depend on it. -/
def svg_handlerSt (tr : Except String String) (db : Option FontDB) :
    Except Error (String × String) × Option FontDB :=
  (svg_handler tr, db)

/-- `png_handler` (main.rs lines 95–156) with the `FONTDB` state
threaded explicitly.  `tr` is the translator result; `fromData` models
`Tree::from_data` (external parser, can fail with `Error::Svg` before
`FONTDB` is touched); `convertText` models
`tree.convert_text(db); resvg::Tree::from_usvg(&tree)`, which consumes
the initialised font database.  On success the body is the pipeline
output with content type `image/png`. -/
def png_handlerSt (tr : Except String String)
    (fromData : String → Except String UTree)
    (convertText : UTree → FontDB → Rtree)
    (db : Option FontDB) :
    Except Error (String × Pixmap) × Option FontDB :=
  match tr with
  | .error m => (.error (.LaTeX m), db)
  | .ok svg =>
    match fromData svg with
    | .error m => (.error (.Svg m), db)
    | .ok t =>
      let (fdb, db') := getOrInit db
      ((png_pipeline (convertText t fdb)).map (fun pix => ("image/png", pix)), db')

/-- The HTTP boundary: an `Ok` handler result is a `200` with the
handler's body, an `Err` goes through `Error::into_response`. -/
def toStatusBody (r : Except Error (String × String)) : ℕ × String :=
  match r with
  | .ok (_, body) => (200, body)
  | .error e => e.into_response

/-! ### Helper lemmas -/

@[simp] lemma fill_width (p : Pixmap) (c : RGBA) : (p.fill c).width = p.width := rfl

@[simp] lemma fill_height (p : Pixmap) (c : RGBA) : (p.fill c).height = p.height := rfl

@[simp] lemma fill_pixel (p : Pixmap) (c : RGBA) (x y : ℕ) : (p.fill c).pixel x y = c := rfl

@[simp] lemma drawPixmap_width (p : Pixmap) (ox oy : ℕ) (src : Pixmap) :
    (p.drawPixmap ox oy src).width = p.width := rfl

@[simp] lemma drawPixmap_height (p : Pixmap) (ox oy : ℕ) (src : Pixmap) :
    (p.drawPixmap ox oy src).height = p.height := rfl

@[simp] lemma renderInto_width (rt : Rtree) (sx sy : ℚ) (p : Pixmap) :
    (renderInto rt sx sy p).width = p.width := rfl

@[simp] lemma renderInto_height (rt : Rtree) (sx sy : ℚ) (p : Pixmap) :
    (renderInto rt sx sy p).height = p.height := rfl

lemma drawPixmap_pixel_in (p : Pixmap) (ox oy : ℕ) (src : Pixmap) (x y : ℕ)
    (h1 : ox ≤ x) (h2 : x < ox + src.width) (h3 : oy ≤ y) (h4 : y < oy + src.height) :
    (p.drawPixmap ox oy src).pixel x y =
      blendOver (src.pixel (x - ox) (y - oy)) (p.pixel x y) := by
  show (if _ then _ else _) = _
  rw [if_pos ⟨h1, h2, h3, h4⟩]

lemma drawPixmap_pixel_out (p : Pixmap) (ox oy : ℕ) (src : Pixmap) (x y : ℕ)
    (h : ¬(ox ≤ x ∧ x < ox + src.width ∧ oy ≤ y ∧ y < oy + src.height)) :
    (p.drawPixmap ox oy src).pixel x y = p.pixel x y := by
  show (if _ then _ else _) = _
  rw [if_neg h]

lemma pixmapNew_pos (w h : ℕ) (hw : w ≠ 0) (hh : h ≠ 0) (hb : w * h * 4 < USIZEMOD) :
    Pixmap.new w h = some ⟨w, h, fun _ _ => RGBA.transparent⟩ := by
  unfold Pixmap.new
  rw [if_neg (by push_neg; exact ⟨hw, hh, hb⟩)]

lemma scaleToHeight_some {s : Size} {t tw th : ℕ}
    (h : scaleToHeight s t = some (tw, th)) :
    th = t ∧ 0 < tw ∧ (tw : ℤ) = round (s.w * t / s.h) := by
  unfold scaleToHeight at h
  split at h
  · exact absurd h (by simp)
  next hc =>
    push_neg at hc
    obtain ⟨_, _, hr, _⟩ := hc
    simp only [Option.some.injEq, Prod.mk.injEq] at h
    obtain ⟨h1, h2⟩ := h
    refine ⟨h2.symm, by omega, by omega⟩

lemma scaleToHeight_degenerate {s : Size} (t : ℕ) (h : s.h ≤ 0) :
    scaleToHeight s t = none := by
  unfold scaleToHeight
  rw [if_pos (Or.inr (Or.inl h))]

lemma scaleToHeight_mk (w h : ℚ) (t : ℕ) :
    scaleToHeight ⟨w, h⟩ t =
      if w ≤ 0 ∨ h ≤ 0 ∨ round (w * t / h) ≤ 0 ∨ t = 0 then none
      else some ((round (w * t / h)).toNat, t) := rfl

lemma scale40_20 : scaleToHeight ⟨40, 20⟩ HEIGHT = some (200, 100) := by
  rw [scaleToHeight_mk]
  have hr : round ((40 : ℚ) * (HEIGHT : ℚ) / 20) = 200 := by
    norm_num [HEIGHT, round_eq]
  rw [hr, if_neg (by norm_num [HEIGHT])]
  rfl

lemma mathImage_ok {rt : Rtree} {pix : Pixmap} (h : mathImage rt = .ok pix) :
    ∃ tw th, scaleToHeight rt.size HEIGHT = some (tw, th) ∧
      pix.width = tw ∧ pix.height = th := by
  unfold mathImage at h
  split at h
  · exact absurd h (by simp)
  next tw th hs =>
    split at h
    · exact absurd h (by simp)
    next p hp =>
      simp only [Except.ok.injEq] at h
      subst h
      unfold Pixmap.new at hp
      split at hp
      · exact absurd hp (by simp)
      · simp only [Option.some.injEq] at hp
        subst hp
        exact ⟨tw, th, hs, rfl, rfl⟩

lemma composite_ok_eq (image : Pixmap)
    (hw : (PADDING * 2 + image.width) % U32MOD ≠ 0)
    (hh : (PADDING * 2 + image.height) % U32MOD ≠ 0)
    (ha : (PADDING * 2 + image.width) % U32MOD *
        ((PADDING * 2 + image.height) % U32MOD) * 4 < USIZEMOD) :
    composite image = .ok
      ((Pixmap.fill
          ⟨(PADDING * 2 + image.width) % U32MOD,
           (PADDING * 2 + image.height) % U32MOD,
           fun _ _ => RGBA.transparent⟩ Color.WHITE).drawPixmap PADDING PADDING image) := by
  unfold composite
  rw [pixmapNew_pos _ _ hw hh ha]

/-! ### Concrete inputs used by witnesses -/

/-- A render tree with the intrinsic size of end-to-end scenario 1 and a
trivial rendering behaviour. -/
def rt0 : Rtree := ⟨⟨40, 20⟩, fun _ _ p => p⟩

/-- A degenerate render tree: intrinsic height 0. -/
def rtDeg : Rtree := ⟨⟨5, 0⟩, fun _ _ p => p⟩

/-- The math image of scenario 1 (what `mathImage rt0` produces). -/
def mpix0 : Pixmap := ⟨200, 100, fun _ _ => RGBA.transparent⟩

/-- A small math image with a half-transparent gray pixel content. -/
def img0 : Pixmap := ⟨200, 100, fun _ _ => ⟨1/2, 1/2, 1/2, 1/2⟩⟩

/-- A pathological math image whose padded width overflows `u32`. -/
def badImage : Pixmap := ⟨U32MOD - 10, 100, fun _ _ => RGBA.transparent⟩

/-- A parser stand-in that accepts its input. -/
def fromData0 : String → Except String UTree := fun s => .ok ⟨s⟩

/-- A text-conversion stand-in returning the scenario-1 tree. -/
def convertText0 : UTree → FontDB → Rtree := fun _ _ => rt0

lemma mathImage_rt0 : mathImage rt0 = .ok mpix0 := by
  have h1 : scaleToHeight rt0.size HEIGHT = some (200, 100) := scale40_20
  have h2 : Pixmap.new 200 100 = some ⟨200, 100, fun _ _ => RGBA.transparent⟩ :=
    pixmapNew_pos 200 100 (by norm_num) (by norm_num) (by norm_num [USIZEMOD])
  simp only [mathImage, h1, h2]
  rfl

/-! ### Claims -/

/-- Claim C1: for every document with positive intrinsic size `(w, h)`, the
computed target size has height `HEIGHT` and width `round (w * HEIGHT / h)`;
in particular intrinsic size `(40, 20)` at target height 100 yields a 200×100
math image and a 240×140 final padded image. -/
theorem claim_C1 :
    (∀ (w h : ℚ) (tw th : ℕ), 0 < w → 0 < h →
       scaleToHeight ⟨w, h⟩ HEIGHT = some (tw, th) →
       th = HEIGHT ∧ (tw : ℤ) = round (w * (HEIGHT : ℚ) / h)) ∧
    scaleToHeight ⟨40, 20⟩ HEIGHT = some (200, 100) ∧
    (∀ rt : Rtree, rt.size = ⟨40, 20⟩ →
       ∃ mpix ppix, mathImage rt = .ok mpix ∧ mpix.width = 200 ∧ mpix.height = 100 ∧
         png_pipeline rt = .ok ppix ∧ ppix.width = 240 ∧ ppix.height = 140) := by
  refine ⟨?_, scale40_20, ?_⟩
  · intro w h tw th hw hh hs
    obtain ⟨h1, _, h3⟩ := scaleToHeight_some hs
    exact ⟨h1, h3⟩
  · intro rt hrt
    have h1 : scaleToHeight rt.size HEIGHT = some (200, 100) := by
      rw [hrt]; exact scale40_20
    have h2 : Pixmap.new 200 100 = some ⟨200, 100, fun _ _ => RGBA.transparent⟩ :=
      pixmapNew_pos 200 100 (by norm_num) (by norm_num) (by norm_num [USIZEMOD])
    have hm : mathImage rt = .ok (renderInto rt (((200 : ℕ) : ℚ) / rt.size.w)
        (((100 : ℕ) : ℚ) / rt.size.h) ⟨200, 100, fun _ _ => RGBA.transparent⟩) := by
      simp only [mathImage, h1, h2]
    refine ⟨renderInto rt (((200 : ℕ) : ℚ) / rt.size.w) (((100 : ℕ) : ℚ) / rt.size.h)
        ⟨200, 100, fun _ _ => RGBA.transparent⟩,
      (Pixmap.fill ⟨240, 140, fun _ _ => RGBA.transparent⟩ Color.WHITE).drawPixmap
        PADDING PADDING (renderInto rt (((200 : ℕ) : ℚ) / rt.size.w)
          (((100 : ℕ) : ℚ) / rt.size.h) ⟨200, 100, fun _ _ => RGBA.transparent⟩),
      hm, rfl, rfl, ?_, rfl, rfl⟩
    simp only [png_pipeline, hm]
    exact composite_ok_eq (renderInto rt (((200 : ℕ) : ℚ) / rt.size.w)
        (((100 : ℕ) : ℚ) / rt.size.h) ⟨200, 100, fun _ _ => RGBA.transparent⟩)
      (by show (PADDING * 2 + 200) % U32MOD ≠ 0; norm_num [PADDING, U32MOD])
      (by show (PADDING * 2 + 100) % U32MOD ≠ 0; norm_num [PADDING, U32MOD])
      (by show (PADDING * 2 + 200) % U32MOD * ((PADDING * 2 + 100) % U32MOD) * 4 < USIZEMOD
          norm_num [PADDING, U32MOD, USIZEMOD])

/-- Witness for C1 at the concrete scenario inputs. -/
theorem claim_C1_witness :
    ((100 : ℕ) = HEIGHT ∧ ((200 : ℕ) : ℤ) = round ((40 : ℚ) * (HEIGHT : ℚ) / 20)) ∧
    (∃ mpix ppix, mathImage rt0 = .ok mpix ∧ mpix.width = 200 ∧ mpix.height = 100 ∧
       png_pipeline rt0 = .ok ppix ∧ ppix.width = 240 ∧ ppix.height = 140) :=
  ⟨claim_C1.1 40 20 200 100 (by norm_num) (by norm_num) scale40_20,
   claim_C1.2.2 rt0 rfl⟩

/-- Claim C2: the claim says every non-translator failure produces a 500
response whose body carries the message prefixed by the string
"Internal Error: ".  The code (main.rs line 64) builds that prefixed string
into `out` but then responds with the bare `self.to_string()`, so the 500
body is unprefixed: the constructed `out` is discarded.  This theorem
evaluates the code at the failing inputs. -/
theorem claim_C2_thm :
    Error.into_response (.Svg "parse failed") = (500, "parse failed") ∧
    (Error.into_response (.Svg "parse failed")).2 ≠ "Internal Error: parse failed" ∧
    Error.into_response (.Png "e") = (500, "e") ∧
    Error.into_response (.Other "e") = (500, "e") := by
  refine ⟨rfl, ?_, rfl, rfl⟩
  decide

/-- Claim C3: a document with intrinsic height 0 makes the scaling step fail
(the pipeline reports the sizing error, it does not panic — the embedding is
a total function returning an explicit error), and a successfully produced
math image is never zero-sized in either dimension. -/
theorem claim_C3 :
    (∀ (w : ℚ) (t : ℕ), scaleToHeight ⟨w, 0⟩ t = none) ∧
    (∀ rt : Rtree, rt.size.h = 0 → mathImage rt = .error (.Other "scaling Pixmap")) ∧
    (∀ (rt : Rtree) (pix : Pixmap), mathImage rt = .ok pix →
      0 < pix.width ∧ 0 < pix.height) := by
  refine ⟨?_, ?_, ?_⟩
  · intro w t
    exact scaleToHeight_degenerate t (le_refl 0)
  · intro rt h
    unfold mathImage
    rw [scaleToHeight_degenerate HEIGHT (le_of_eq h)]
  · intro rt pix h
    obtain ⟨tw, th, hs, hw, hh⟩ := mathImage_ok h
    obtain ⟨h1, h2, _⟩ := scaleToHeight_some hs
    constructor
    · omega
    · rw [hh, h1]
      norm_num [HEIGHT]

/-- Witness for C3 at a degenerate and a valid concrete document. -/
theorem claim_C3_witness :
    scaleToHeight ⟨5, 0⟩ HEIGHT = none ∧
    mathImage rtDeg = .error (.Other "scaling Pixmap") ∧
    (0 < mpix0.width ∧ 0 < mpix0.height) :=
  ⟨claim_C3.1 5 HEIGHT, claim_C3.2.1 rtDeg rfl, claim_C3.2.2 rt0 mpix0 mathImage_rt0⟩

/-- Claim C4: for every math image whose padded dimensions fit the machine
integer bounds, the padded canvas has dimensions exactly
`(width + 2·PADDING, height + 2·PADDING)` and the math image is drawn at
offset `(PADDING, PADDING)` (each covered pixel is the math image pixel
blended over the canvas pixel, which the fill made white). -/
theorem claim_C4 (image : Pixmap)
    (hw : image.width + 2 * PADDING < U32MOD)
    (hh : image.height + 2 * PADDING < U32MOD)
    (ha : (image.width + 2 * PADDING) * (image.height + 2 * PADDING) * 4 < USIZEMOD) :
    ∃ out, composite image = .ok out ∧
      out.width = image.width + 2 * PADDING ∧
      out.height = image.height + 2 * PADDING ∧
      ∀ x y, x < image.width → y < image.height →
        out.pixel (PADDING + x) (PADDING + y) = blendOver (image.pixel x y) Color.WHITE := by
  have hp : 0 < PADDING := by norm_num [PADDING]
  have e1 : (PADDING * 2 + image.width) % U32MOD = image.width + 2 * PADDING := by
    rw [Nat.mod_eq_of_lt (by omega)]; omega
  have e2 : (PADDING * 2 + image.height) % U32MOD = image.height + 2 * PADDING := by
    rw [Nat.mod_eq_of_lt (by omega)]; omega
  have hc := composite_ok_eq image (by omega) (by omega) (by rw [e1, e2]; exact ha)
  refine ⟨_, hc, ?_, ?_, ?_⟩
  · simp only [drawPixmap_width, fill_width]
    exact e1
  · simp only [drawPixmap_height, fill_height]
    exact e2
  · intro x y hx hy
    rw [drawPixmap_pixel_in _ _ _ _ _ _ (by omega) (by omega) (by omega) (by omega)]
    simp only [fill_pixel]
    rw [show PADDING + x - PADDING = x from by omega,
        show PADDING + y - PADDING = y from by omega]

/-- Witness for C4 at a concrete 200×100 math image. -/
theorem claim_C4_witness :
    ∃ out, composite img0 = .ok out ∧
      out.width = img0.width + 2 * PADDING ∧
      out.height = img0.height + 2 * PADDING ∧
      ∀ x y, x < img0.width → y < img0.height →
        out.pixel (PADDING + x) (PADDING + y) = blendOver (img0.pixel x y) Color.WHITE :=
  claim_C4 img0 (by norm_num [img0, PADDING, U32MOD])
    (by norm_num [img0, PADDING, U32MOD])
    (by norm_num [img0, PADDING, USIZEMOD])

/-- Claim C5: in the padded canvas, every pixel of the padding border (not
covered by the drawn math image) is opaque white, and every covered pixel is
the math image pixel source-over-blended onto the opaque white background
(never white blended over the math image). -/
theorem claim_C5 (image : Pixmap)
    (hw : image.width + 2 * PADDING < U32MOD)
    (hh : image.height + 2 * PADDING < U32MOD)
    (ha : (image.width + 2 * PADDING) * (image.height + 2 * PADDING) * 4 < USIZEMOD) :
    ∃ out, composite image = .ok out ∧
      (∀ x y, ¬(PADDING ≤ x ∧ x < PADDING + image.width ∧
          PADDING ≤ y ∧ y < PADDING + image.height) →
        out.pixel x y = Color.WHITE) ∧
      (∀ x y, x < image.width → y < image.height →
        out.pixel (PADDING + x) (PADDING + y) = blendOver (image.pixel x y) Color.WHITE) := by
  have hp : 0 < PADDING := by norm_num [PADDING]
  have e1 : (PADDING * 2 + image.width) % U32MOD = image.width + 2 * PADDING := by
    rw [Nat.mod_eq_of_lt (by omega)]; omega
  have e2 : (PADDING * 2 + image.height) % U32MOD = image.height + 2 * PADDING := by
    rw [Nat.mod_eq_of_lt (by omega)]; omega
  have hc := composite_ok_eq image (by omega) (by omega) (by rw [e1, e2]; exact ha)
  refine ⟨_, hc, ?_, ?_⟩
  · intro x y hxy
    rw [drawPixmap_pixel_out _ _ _ _ _ _ hxy]
    simp only [fill_pixel]
  · intro x y hx hy
    rw [drawPixmap_pixel_in _ _ _ _ _ _ (by omega) (by omega) (by omega) (by omega)]
    simp only [fill_pixel]
    rw [show PADDING + x - PADDING = x from by omega,
        show PADDING + y - PADDING = y from by omega]

/-- Witness for C5 at a concrete math image with half-transparent content. -/
theorem claim_C5_witness :
    ∃ out, composite img0 = .ok out ∧
      (∀ x y, ¬(PADDING ≤ x ∧ x < PADDING + img0.width ∧
          PADDING ≤ y ∧ y < PADDING + img0.height) →
        out.pixel x y = Color.WHITE) ∧
      (∀ x y, x < img0.width → y < img0.height →
        out.pixel (PADDING + x) (PADDING + y) = blendOver (img0.pixel x y) Color.WHITE) :=
  claim_C5 img0 (by norm_num [img0, PADDING, U32MOD])
    (by norm_num [img0, PADDING, U32MOD])
    (by norm_num [img0, PADDING, USIZEMOD])

/-- Claim C6: for every valid document (positive intrinsic width and height),
a successfully rasterized math canvas has height exactly `HEIGHT`. -/
theorem claim_C6 (rt : Rtree) (pix : Pixmap)
    (hw : 0 < rt.size.w) (hh : 0 < rt.size.h)
    (hok : mathImage rt = .ok pix) : pix.height = HEIGHT := by
  obtain ⟨tw, th, hs, _, hph⟩ := mathImage_ok hok
  obtain ⟨h1, _, _⟩ := scaleToHeight_some hs
  rw [hph, h1]

/-- Witness for C6 at the scenario-1 document. -/
theorem claim_C6_witness : mpix0.height = HEIGHT :=
  claim_C6 rt0 mpix0 (by norm_num [rt0]) (by norm_num [rt0]) mathImage_rt0

/-- Counterexample to C7 as stated: for a math image of width `2^32 - 10`,
the padded width computation overflows `u32`; the code does not report a
size error — the unchecked addition wraps modulo `2^32` and compositing
"succeeds" with a 30-pixel-wide canvas instead of failing. -/
theorem claim_C7_cex :
    U32MOD < PADDING * 2 + badImage.width ∧
    (∃ out, composite badImage = .ok out ∧ out.width = 30 ∧
      out.width ≠ badImage.width + 2 * PADDING) := by
  constructor
  · norm_num [badImage, PADDING, U32MOD]
  · refine ⟨_, composite_ok_eq badImage
      (by norm_num [badImage, PADDING, U32MOD])
      (by norm_num [badImage, PADDING, U32MOD])
      (by norm_num [badImage, PADDING, U32MOD, USIZEMOD]), ?_, ?_⟩
    · simp only [drawPixmap_width, fill_width]
      norm_num [badImage, PADDING, U32MOD]
    · simp only [drawPixmap_width, fill_width]
      norm_num [badImage, PADDING, U32MOD]

/-- Claim C7 (amended): compositing succeeds for every math image whose
wrapped padded dimensions are nonzero and whose padded pixel buffer byte
length fits in `usize`; the padded size is computed with wrapping `u32`
addition (`% 2^32`), so pathological sizes wrap silently instead of
reporting a size error. -/
theorem claim_C7 (image : Pixmap)
    (hw : (PADDING * 2 + image.width) % U32MOD ≠ 0)
    (hh : (PADDING * 2 + image.height) % U32MOD ≠ 0)
    (ha : (PADDING * 2 + image.width) % U32MOD *
        ((PADDING * 2 + image.height) % U32MOD) * 4 < USIZEMOD) :
    ∃ out, composite image = .ok out ∧
      out.width = (PADDING * 2 + image.width) % U32MOD ∧
      out.height = (PADDING * 2 + image.height) % U32MOD := by
  refine ⟨_, composite_ok_eq image hw hh ha, ?_, ?_⟩
  · simp only [drawPixmap_width, fill_width]
  · simp only [drawPixmap_height, fill_height]

/-- Witness for the amended C7 at the overflowing concrete image. -/
theorem claim_C7_witness :
    ∃ out, composite badImage = .ok out ∧
      out.width = (PADDING * 2 + badImage.width) % U32MOD ∧
      out.height = (PADDING * 2 + badImage.height) % U32MOD :=
  claim_C7 badImage (by norm_num [badImage, PADDING, U32MOD])
    (by norm_num [badImage, PADDING, U32MOD])
    (by norm_num [badImage, PADDING, U32MOD, USIZEMOD])

/-- Claim C8: a translator-rejected expression yields, on either endpoint, an
`Error::LaTeX` result, whose HTTP response is status 400 with the body
prefixed by "LaTeX Error: ". -/
theorem claim_C8 (m : String) (db : Option FontDB)
    (fromData : String → Except String UTree)
    (convertText : UTree → FontDB → Rtree) :
    (svg_handlerSt (.error m) db).1 = .error (.LaTeX m) ∧
    (png_handlerSt (.error m) fromData convertText db).1 = .error (.LaTeX m) ∧
    Error.into_response (.LaTeX m) = (400, "LaTeX Error: " ++ m) :=
  ⟨rfl, rfl, rfl⟩

/-- Claim C10: the SVG handler neither reads nor initializes the font
database (the threaded state passes through untouched and the result does
not depend on it); on success it returns the translator output unchanged
with content type `image/svg+xml`; only the PNG path (after a successful
parse) initializes the database. -/
theorem claim_C10 (tr : Except String String) (db : Option FontDB) :
    svg_handlerSt tr db = (svg_handler tr, db) ∧
    (∀ svg, tr = .ok svg → (svg_handlerSt tr db).1 = .ok ("image/svg+xml", svg)) ∧
    (∀ (fromData : String → Except String UTree)
       (convertText : UTree → FontDB → Rtree) (svg : String) (t : UTree),
       tr = .ok svg → fromData svg = .ok t →
       (png_handlerSt tr fromData convertText none).2 = some initFontDB) := by
  refine ⟨rfl, ?_, ?_⟩
  · rintro svg rfl
    rfl
  · rintro fromData convertText svg t rfl hfd
    simp only [png_handlerSt, hfd]
    rfl

/-- Witness for C10 at concrete translator output and parser. -/
theorem claim_C10_witness :
    svg_handlerSt (.ok "svg-out") (some initFontDB) =
      (svg_handler (.ok "svg-out"), some initFontDB) ∧
    (svg_handlerSt (.ok "svg-out") (some initFontDB)).1 =
      .ok ("image/svg+xml", "svg-out") ∧
    (png_handlerSt (.ok "svg-out") fromData0 convertText0 none).2 = some initFontDB := by
  obtain ⟨h1, h2, h3⟩ := claim_C10 (.ok "svg-out") (some initFontDB)
  exact ⟨h1, h2 "svg-out" rfl, h3 fromData0 convertText0 "svg-out" ⟨"svg-out"⟩ rfl rfl⟩

end TexGaato
